import Mathlib

/-!
Shallow embedding of `src/lite-light.js` (LiteLight image lightbox).

Coordinates, distances, scales and offsets are modelled as real numbers
(the JS source computes with IEEE doubles; the spec and all claims reason
about them as reals).  Touch lists model `e.touches` / `e.changedTouches`.
JS out-of-bounds element accesses (which yield `undefined` and make the
subsequent property access throw) are modelled with `Option`.
-/

namespace LiteLight

open Classical

/-- One contact point, as the JS handlers read it (`touch.screenX/screenY`). -/
structure Touch where
  screenX : ℝ
  screenY : ℝ

/-- A point `{x, y}` as returned by `getTouchCenter`. -/
structure Point where
  x : ℝ
  y : ℝ

/-- The JS module-level `touchState` object (lite-light.js lines 13-22). -/
structure TouchState where
  startX : ℝ
  startY : ℝ
  endX : ℝ
  endY : ℝ
  initialDistance : ℝ
  isZooming : Bool
  lastCenterX : ℝ
  lastCenterY : ℝ

/-- The JS module-level `zoomState` object (lite-light.js lines 24-31). -/
structure ZoomState where
  scale : ℝ
  x : ℝ
  y : ℝ
  initialScale : ℝ
  initialX : ℝ
  initialY : ℝ

/-- Constant `ZOOM_TOLERANCE = 0.01` (line 34). -/
def ZOOM_TOLERANCE : ℝ := 0.01

/-- Constant `MIN_ZOOM = 1` (line 35). -/
def MIN_ZOOM : ℝ := 1

/-- Constant `MAX_ZOOM = 5` (line 36). -/
def MAX_ZOOM : ℝ := 5

/-- The initial value of `touchState` (lines 13-22). -/
def initialTouchState : TouchState :=
  { startX := 0, startY := 0, endX := 0, endY := 0, initialDistance := 0,
    isZooming := false, lastCenterX := 0, lastCenterY := 0 }

/-- The initial value of `zoomState` (lines 24-31). -/
def initialZoomState : ZoomState :=
  { scale := 1, x := 0, y := 0, initialScale := 1, initialX := 0, initialY := 0 }

/-- Function `getTouchDistance(touches)` (lines 73-83): returns `0` when fewer than two
touches are supplied, else the Euclidean distance between the first two. -/
noncomputable def getTouchDistance (touches : List Touch) : ℝ :=
  match touches with
  | touch1 :: touch2 :: _ =>
      Real.sqrt ((touch2.screenX - touch1.screenX) ^ 2 +
        (touch2.screenY - touch1.screenY) ^ 2)
  | _ => 0

/-- Function `getTouchCenter(touches)` (lines 85-95): with fewer than two touches the JS
returns `{x: touches[0].screenX, y: touches[0].screenY}`, which on an empty
touch list dereferences `undefined` and throws (modelled as `none`); with one
touch it returns that point; with two or more, the midpoint of the first two. -/
noncomputable def getTouchCenter (touches : List Touch) : Option Point :=
  match touches with
  | [] => none
  | [touch1] => some { x := touch1.screenX, y := touch1.screenY }
  | touch1 :: touch2 :: _ =>
      some { x := (touch1.screenX + touch2.screenX) / 2,
             y := (touch1.screenY + touch2.screenY) / 2 }

/-- The render instruction `applyZoomTransform` writes (lines 97-100):
`transform: scale(zoomState.scale) translate(zoomState.x px, zoomState.y px)`. -/
structure Transform where
  scale : ℝ
  translateX : ℝ
  translateY : ℝ

/-- Function `applyZoomTransform` (lines 97-100): the rendered transform uses the stored
scale and offsets unchanged. -/
def applyZoomTransform (zs : ZoomState) : Transform :=
  { scale := zs.scale, translateX := zs.x, translateY := zs.y }

/-- Function `resetZoom` (lines 102-107): sets scale to 1 and both offsets to 0
(the `initial*` fields are untouched). -/
def resetZoom (zs : ZoomState) : ZoomState :=
  { zs with scale := 1, x := 0, y := 0 }

/-- Function `isApproximatelyOne(value)` (lines 109-111): `|value - 1| < ZOOM_TOLERANCE`. -/
def isApproximatelyOne (value : ℝ) : Prop :=
  |value - 1| < ZOOM_TOLERANCE

/-- The clamp inlined at line 229:
`Math.max(MIN_ZOOM, Math.min(MAX_ZOOM, requested))`. -/
noncomputable def clampScale (requested : ℝ) : ℝ :=
  max MIN_ZOOM (min MAX_ZOOM requested)

/-- Handler `handleTouchStart(e)` (lines 188-217).  The JS branches on
`touches.length === 1` and `touches.length === 2`; any other contact count
(zero, or three and more) matches no branch and leaves both states unchanged. -/
noncomputable def handleTouchStart (ts : TouchState) (zs : ZoomState) (touches : List Touch) :
    TouchState × ZoomState :=
  match touches with
  | [touch] =>
      ({ ts with startX := touch.screenX, startY := touch.screenY,
                 lastCenterX := touch.screenX, lastCenterY := touch.screenY,
                 isZooming := false },
       { zs with initialScale := zs.scale, initialX := zs.x, initialY := zs.y })
  | [touch1, touch2] =>
      let center := (getTouchCenter [touch1, touch2]).getD { x := 0, y := 0 }
      ({ ts with initialDistance := getTouchDistance [touch1, touch2],
                 lastCenterX := center.x, lastCenterY := center.y,
                 isZooming := true },
       { zs with initialScale := zs.scale, initialX := zs.x, initialY := zs.y })
  | _ => (ts, zs)

/-- Handler `handleTouchMove(e)` (lines 219-267).  Branches on `touches.length === 2`
(pinch) and `touches.length === 1 && zoomState.scale > MIN_ZOOM` (pan while
zoomed); any other event is a no-op. -/
noncomputable def handleTouchMove (ts : TouchState) (zs : ZoomState)
    (touches : List Touch) : TouchState × ZoomState :=
  match touches with
  | [touch1, touch2] =>
      let currentDistance := getTouchDistance [touch1, touch2]
      let center := (getTouchCenter [touch1, touch2]).getD { x := 0, y := 0 }
      let zs1 :=
        if ts.initialDistance > 0 then
          let scaleChange := currentDistance / ts.initialDistance
          let newScale := clampScale (zs.initialScale * scaleChange)
          if isApproximatelyOne newScale then
            { zs with scale := newScale, x := 0, y := 0 }
          else
            let deltaX := center.x - ts.lastCenterX
            let deltaY := center.y - ts.lastCenterY
            if newScale > MIN_ZOOM then
              { zs with scale := newScale,
                        x := zs.initialX + deltaX / newScale,
                        y := zs.initialY + deltaY / newScale }
            else
              { zs with scale := newScale }
        else zs
      ({ ts with lastCenterX := center.x, lastCenterY := center.y,
                 isZooming := true }, zs1)
  | [touch] =>
      if zs.scale > MIN_ZOOM then
        let deltaX := touch.screenX - ts.lastCenterX
        let deltaY := touch.screenY - ts.lastCenterY
        ({ ts with lastCenterX := touch.screenX, lastCenterY := touch.screenY,
                   isZooming := true },
         { zs with x := zs.x + deltaX / zs.scale, y := zs.y + deltaY / zs.scale })
      else (ts, zs)
  | _ => (ts, zs)

/-- Handler `handleTouchEnd(e)` (lines 269-293).  Returns the updated touch state and
the index requested from `navigateToImage` (`none` when no navigation fires).
Navigation fires only when exactly one touch was released, the zooming flag is
clear, no touches remain, the scale is approximately 1, and the swipe is
horizontal-dominant and beyond the threshold. -/
noncomputable def handleTouchEnd (swipeThreshold : ℝ) (currentIndex : ℤ)
    (ts : TouchState) (zs : ZoomState) (changedTouches touches : List Touch) :
    TouchState × Option ℤ :=
  let r :=
    match changedTouches with
    | [touch] =>
        if ts.isZooming = false ∧ touches.length = 0 ∧
            isApproximatelyOne zs.scale then
          let ts1 := { ts with endX := touch.screenX, endY := touch.screenY }
          let swipeDistanceX := ts1.endX - ts1.startX
          let swipeDistanceY := ts1.endY - ts1.startY
          if |swipeDistanceX| > |swipeDistanceY| ∧
              |swipeDistanceX| > swipeThreshold then
            (ts1, some (if swipeDistanceX > 0 then currentIndex - 1
                        else currentIndex + 1))
          else (ts1, none)
        else (ts, none)
    | _ => (ts, none)
  if touches.length = 0 then
    ({ r.1 with isZooming := false, initialDistance := 0 }, r.2)
  else r

/-- Function `navigateToImage(index)`, index update only (lines 154-157):
`currentIndex = (index + images.length) % images.length`, with the JS `%`
being the truncating remainder (`Int.tmod`). -/
def navigateToImage (index : ℤ) (count : ℤ) : ℤ :=
  Int.tmod (index + count) count

/-- A DOM element as the delegated click handler reads it (lines 136-141):
its tag name, its attributes, and an identity (`eid`) standing for JS
reference identity in `img === e.target`. -/
structure Element where
  eid : ℕ
  tagName : String
  attrs : List (String × String)
deriving DecidableEq

/-- Method `el.hasAttribute(name)` for the modelled element. -/
def hasAttribute (el : Element) (attrName : String) : Bool :=
  (el.attrs.lookup attrName).isSome

/-- Call `images.findIndex(img => img === e.target)` (line 141): the index of the
first occurrence, or `-1` when the target is not in the array. -/
def jsFindIndex (images : List Element) (target : Element) : ℤ :=
  match images.findIdx? (fun img => img == target) with
  | some i => (i : ℤ)
  | none => -1

/-- JS array indexing `images[i]` as the open sequence uses it (lines 332,
335): an in-bounds index yields the element, any other index yields
`undefined` (modelled `none`), so the subsequent `.getAttribute` call throws. -/
def jsArrayGet (images : List Element) (i : ℤ) : Option Element :=
  if h : 0 ≤ i ∧ i.toNat < images.length then some (images.get ⟨i.toNat, h.2⟩)
  else none

/-- The delegated click handler's open sequence (lines 136-141 and 329-335):
`none` when the early-return guard fires (target is not an IMG carrying
`config.imageUrlAttribute`); otherwise the computed `currentIndex` together
with the element the open sequence reads at `images[currentIndex]`.
`matchesSelector` abstracts `document.querySelectorAll(config.imageSelector)`
membership, so `images` is the document's matching sublist. -/
def clickOpenLookup (imageUrlAttribute : String)
    (matchesSelector : Element → Bool) (doc : List Element) (target : Element) :
    Option (ℤ × Option Element) :=
  if target.tagName == "IMG" && hasAttribute target imageUrlAttribute then
    let images := doc.filter matchesSelector
    let currentIndex := jsFindIndex images target
    some (currentIndex, jsArrayGet images currentIndex)
  else none

/-- A concrete IMG element carrying `data-lightbox` (for the concrete part of
the claim about the click-time membership precondition). -/
def c10Target : Element :=
  { eid := 0, tagName := "IMG", attrs := [("data-lightbox", "full.jpg")] }

/-- Touch state at the start of the spec's swipe scenario: gesture started at
`(300, 200)`, zooming flag clear. -/
def c5SwipeTouch : TouchState :=
  { initialTouchState with startX := 300, startY := 200 }

/-- Touch state holding the spec's pinch scenario snapshot: initial pinch
distance 100. -/
def c6PinchTouch : TouchState :=
  { initialTouchState with initialDistance := 100 }

/-- Zoom state at scale 2 with offsets 0 (the spec's pan-while-zoomed
scenario). -/
def c7PanZoom : ZoomState :=
  { initialZoomState with scale := 2 }

/-- The touch state reached by the concrete gesture trace refuting the
tolerance-based rest invariant (see the counterexample below). -/
def c1FinalTouch : TouchState :=
  { startX := 0, startY := 0, endX := 0, endY := 0, initialDistance := 0,
    isZooming := true, lastCenterX := 20.1, lastCenterY := 0 }

/-- The zoom state reached by that same trace: scale `1.005` (within the
`0.01` tolerance of 1) with a nonzero offset `x = 20`. -/
def c1FinalZoom : ZoomState :=
  { scale := 1.005, x := 20, y := 0, initialScale := 1.005, initialX := 0,
    initialY := 0 }

/-- States of the module-level `(touchState, zoomState)` pair reachable through
the gesture handlers and `resetZoom`, from the initial object literals. -/
inductive Reachable : TouchState × ZoomState → Prop
  | init : Reachable (initialTouchState, initialZoomState)
  | reset (ts : TouchState) (zs : ZoomState) (h : Reachable (ts, zs)) :
      Reachable (ts, resetZoom zs)
  | start (ts : TouchState) (zs : ZoomState) (touches : List Touch)
      (h : Reachable (ts, zs)) : Reachable (handleTouchStart ts zs touches)
  | move (ts : TouchState) (zs : ZoomState) (touches : List Touch)
      (h : Reachable (ts, zs)) : Reachable (handleTouchMove ts zs touches)
  | touchEnd (swipeThreshold : ℝ) (currentIndex : ℤ) (ts : TouchState)
      (zs : ZoomState) (changedTouches touches : List Touch)
      (h : Reachable (ts, zs)) :
      Reachable ((handleTouchEnd swipeThreshold currentIndex ts zs
        changedTouches touches).1, zs)

/-! ## Theorems -/

/-- Claim C3 counterexample: at `requestedIndex = -5`, `count = 3` the code's
single-modulo update stores `-2` (outside `[0, 3)`), while the claimed
double-modulo expression `((-5 % 3) + 3) % 3` is `1`. -/
theorem c3_counterexample :
    navigateToImage (-5) 3 = -2 ∧ (Int.tmod (-5 : ℤ) 3 + 3).tmod 3 = 1 := by
  constructor <;> decide

/-- Claim C3 (amended): for every positive `count` and every
`requestedIndex ≥ -count`, the stored index equals the double-modulo
expression `((requestedIndex % count) + count) % count` and lies in
`[0, count)`; below that domain the code's single modulo can disagree and
leave `[0, count)` (see the counterexample at `-5`, `count = 3`). -/
theorem c3_navigate_wrap_amended (index count : ℤ) (hc : 0 < count)
    (hi : -count ≤ index) :
    navigateToImage index count = (Int.tmod index count + count).tmod count ∧
    0 ≤ navigateToImage index count ∧ navigateToImage index count < count := by
  have hc0 : (0 : ℤ) ≤ count := hc.le
  have h0 : (0 : ℤ) ≤ index + count := by omega
  have hL : navigateToImage index count = (index + count) % count :=
    Int.tmod_eq_emod h0 hc0
  refine ⟨?_, ?_, ?_⟩
  · rw [hL]
    rcases le_or_lt 0 index with h | h
    · have h2 : (0 : ℤ) ≤ index % count := Int.emod_nonneg index (by omega)
      rw [Int.tmod_eq_emod h hc0, Int.tmod_eq_emod (by omega) hc0]
      conv_lhs => rw [Int.add_emod, Int.emod_self, add_zero,
        Int.emod_emod_of_dvd index dvd_rfl]
      rw [Int.add_emod, Int.emod_self, add_zero,
        Int.emod_emod_of_dvd index dvd_rfl,
        Int.emod_emod_of_dvd index dvd_rfl]
    · rcases eq_or_lt_of_le hi with he | hlt
      · rw [← he]
        have hmc : Int.tmod (-count) count = 0 := Int.neg_tmod_self count
        rw [hmc, zero_add, Int.tmod_self]
        have : -count + count = 0 := by ring
        rw [this]
        simp
      · have hm : Int.tmod index count = index := by
          rw [show index = -(-index) from (neg_neg index).symm, Int.tmod_def,
            Int.neg_tdiv, Int.tdiv_eq_zero_of_lt (by omega) (by omega)]
          ring
        rw [hm, Int.tmod_eq_emod h0 hc0]
  · rw [hL]; exact Int.emod_nonneg _ (by omega)
  · rw [hL]; exact Int.emod_lt_of_pos _ hc

/-- Witness for the amended C3 at `requestedIndex = -3`, `count = 3`. -/
theorem c3_witness :
    navigateToImage (-3) 3 = (Int.tmod (-3 : ℤ) 3 + 3).tmod 3 ∧
    0 ≤ navigateToImage (-3) 3 ∧ navigateToImage (-3) 3 < 3 :=
  c3_navigate_wrap_amended (-3) 3 (by decide) (by decide)

/-- Claim C9: navigating with a total delta of `count` (a full wrap) from any
starting index in `[0, count)` returns to the same index. -/
theorem c9_full_wrap_roundtrip (i count : ℤ) (hc : 0 < count) (h0 : 0 ≤ i)
    (hi : i < count) : navigateToImage (i + count) count = i := by
  unfold navigateToImage
  rw [Int.tmod_eq_emod (by omega) (by omega)]
  rw [show i + count + count = i + count * 2 from by ring,
    Int.add_mul_emod_self_left, Int.emod_eq_of_lt h0 hi]

/-- Witness for C9 at `i = 2`, `count = 3`. -/
theorem c9_witness : navigateToImage (2 + 3) 3 = 2 :=
  c9_full_wrap_roundtrip 2 3 (by decide) (by decide) (by decide)

/-- Claim C4 counterexample: with zero contact points `getTouchCenter` does
not return a point at all — the JS dereferences the missing `touches[0]` and
throws, modelled as `none` — refuting "returns the single available point
unchanged ... including the case of zero points". -/
theorem c4_counterexample : getTouchCenter ([] : List Touch) = none := rfl

/-- Claim C4 (amended): `getTouchDistance` returns 0 whenever fewer than two
points are supplied (zero or one); `getTouchCenter` returns the single point
unchanged when exactly one point is supplied, and fails (`none`: the JS
throws) on zero points. -/
theorem c4_geometry_degrade :
    (∀ touches : List Touch, touches.length < 2 → getTouchDistance touches = 0) ∧
    (∀ t : Touch, getTouchCenter [t] = some { x := t.screenX, y := t.screenY }) ∧
    getTouchCenter ([] : List Touch) ≠ some { x := 0, y := 0 } := by
  refine ⟨?_, fun t => rfl, by simp [getTouchCenter]⟩
  intro touches h
  rcases touches with _ | ⟨t1, _ | ⟨t2, rest⟩⟩
  · rfl
  · rfl
  · simp [List.length_cons] at h
    omega

/-- Claim C2 counterexample: a touch-start with three contacts leaves both
states unchanged (in particular the zooming flag stays `false` and no pinch
distance is stored), while the same event with two contacts enters pinch
processing — so an event with 3 or more contacts is not treated like one
with exactly 2. -/
theorem c2_counterexample :
    handleTouchStart initialTouchState initialZoomState
      [{ screenX := 0, screenY := 0 }, { screenX := 10, screenY := 0 },
        { screenX := 20, screenY := 0 }] =
      (initialTouchState, initialZoomState) ∧
    (handleTouchStart initialTouchState initialZoomState
      [{ screenX := 0, screenY := 0 }, { screenX := 10, screenY := 0 }]).1.isZooming
      = true := ⟨rfl, rfl⟩

/-- Claim C2 (amended): the gesture phase is selected by the contact count
being 0, 1, or exactly 2: an event with exactly two contacts is processed as
a pinch (zooming flag set; the initial pinch distance is stored on start),
while a touch-start or touch-move with three or more contacts matches no
branch and leaves both states unchanged. -/
theorem c2_contact_count_phases :
    (∀ (ts : TouchState) (zs : ZoomState) (t1 t2 : Touch),
      (handleTouchStart ts zs [t1, t2]).1.isZooming = true ∧
      (handleTouchStart ts zs [t1, t2]).1.initialDistance =
        getTouchDistance [t1, t2] ∧
      (handleTouchMove ts zs [t1, t2]).1.isZooming = true) ∧
    (∀ (ts : TouchState) (zs : ZoomState) (touches : List Touch),
      3 ≤ touches.length →
      handleTouchStart ts zs touches = (ts, zs) ∧
      handleTouchMove ts zs touches = (ts, zs)) := by
  constructor
  · exact fun ts zs t1 t2 => ⟨rfl, rfl, rfl⟩
  · intro ts zs touches h
    rcases touches with _ | ⟨a, _ | ⟨b, _ | ⟨c, rest⟩⟩⟩
    · simp at h
    · simp at h
    · simp [List.length_cons] at h
    · exact ⟨rfl, rfl⟩

/-- Claim C6: on a two-contact move with stored initial distance `> 0`, the
new scale is `clampScale (initialScale * currentDistance / initialDistance)`;
with initial distance `0` the whole zoom update is skipped (no division by
zero) and the zoom state is unchanged.  Concretely: initial distance 100 and
initial scale 1 give scale 2 at current distance 200 and the clamped scale 5
at current distance 1000. -/
theorem c6_pinch_scale_formula :
    (∀ (ts : TouchState) (zs : ZoomState) (t1 t2 : Touch),
      ts.initialDistance > 0 →
      (handleTouchMove ts zs [t1, t2]).2.scale =
        clampScale (zs.initialScale *
          (getTouchDistance [t1, t2] / ts.initialDistance))) ∧
    (∀ (ts : TouchState) (zs : ZoomState) (t1 t2 : Touch),
      ts.initialDistance = 0 → (handleTouchMove ts zs [t1, t2]).2 = zs) ∧
    (handleTouchMove c6PinchTouch initialZoomState
      [{ screenX := 0, screenY := 0 }, { screenX := 200, screenY := 0 }]).2.scale
      = 2 ∧
    (handleTouchMove c6PinchTouch initialZoomState
      [{ screenX := 0, screenY := 0 }, { screenX := 1000, screenY := 0 }]).2.scale
      = 5 := by
  have hgen : ∀ (ts : TouchState) (zs : ZoomState) (t1 t2 : Touch),
      ts.initialDistance > 0 →
      (handleTouchMove ts zs [t1, t2]).2.scale =
        clampScale (zs.initialScale *
          (getTouchDistance [t1, t2] / ts.initialDistance)) := by
    intro ts zs t1 t2 h
    simp only [handleTouchMove]
    rw [if_pos h]
    split_ifs <;> rfl
  have hd200 : getTouchDistance
      [{ screenX := 0, screenY := 0 }, { screenX := 200, screenY := 0 }] = 200 := by
    show Real.sqrt (((200 : ℝ) - 0) ^ 2 + ((0 : ℝ) - 0) ^ 2) = 200
    rw [show ((200 : ℝ) - 0) ^ 2 + ((0 : ℝ) - 0) ^ 2 = 200 ^ 2 by norm_num]
    exact Real.sqrt_sq (by norm_num)
  have hd1000 : getTouchDistance
      [{ screenX := 0, screenY := 0 }, { screenX := 1000, screenY := 0 }] = 1000 := by
    show Real.sqrt (((1000 : ℝ) - 0) ^ 2 + ((0 : ℝ) - 0) ^ 2) = 1000
    rw [show ((1000 : ℝ) - 0) ^ 2 + ((0 : ℝ) - 0) ^ 2 = 1000 ^ 2 by norm_num]
    exact Real.sqrt_sq (by norm_num)
  refine ⟨hgen, ?_, ?_, ?_⟩
  · intro ts zs t1 t2 h
    simp only [handleTouchMove]
    rw [if_neg (by rw [h]; exact lt_irrefl 0)]
  · rw [hgen c6PinchTouch initialZoomState _ _ (by norm_num [c6PinchTouch,
      initialTouchState]), hd200]
    norm_num [c6PinchTouch, initialTouchState, initialZoomState, clampScale,
      MIN_ZOOM, MAX_ZOOM, min_def, max_def]
  · rw [hgen c6PinchTouch initialZoomState _ _ (by norm_num [c6PinchTouch,
      initialTouchState]), hd1000]
    norm_num [c6PinchTouch, initialTouchState, initialZoomState, clampScale,
      MIN_ZOOM, MAX_ZOOM, min_def, max_def]

/-- Claim C7: a one-contact move while `scale > MIN_ZOOM` accumulates the
centroid delta divided by the current scale onto the existing offset (not a
reset to the gesture-initial offset), and the rendered transform uses the
stored offset unchanged.  Concretely at scale 2 a move of `(20, 0)` device
pixels changes the offset by exactly `(10, 0)`. -/
theorem c7_pan_accumulates_offset :
    (∀ (ts : TouchState) (zs : ZoomState) (t : Touch), zs.scale > MIN_ZOOM →
      (handleTouchMove ts zs [t]).2 =
        { zs with x := zs.x + (t.screenX - ts.lastCenterX) / zs.scale,
                  y := zs.y + (t.screenY - ts.lastCenterY) / zs.scale }) ∧
    (∀ zs : ZoomState, (applyZoomTransform zs).scale = zs.scale ∧
      (applyZoomTransform zs).translateX = zs.x ∧
      (applyZoomTransform zs).translateY = zs.y) ∧
    (handleTouchMove initialTouchState c7PanZoom
      [{ screenX := 20, screenY := 0 }]).2.x = 10 ∧
    (handleTouchMove initialTouchState c7PanZoom
      [{ screenX := 20, screenY := 0 }]).2.y = 0 := by
  have hgen : ∀ (ts : TouchState) (zs : ZoomState) (t : Touch),
      zs.scale > MIN_ZOOM →
      (handleTouchMove ts zs [t]).2 =
        { zs with x := zs.x + (t.screenX - ts.lastCenterX) / zs.scale,
                  y := zs.y + (t.screenY - ts.lastCenterY) / zs.scale } := by
    intro ts zs t h
    simp only [handleTouchMove]
    rw [if_pos h]
  refine ⟨hgen, fun zs => ⟨rfl, rfl, rfl⟩, ?_, ?_⟩
  · rw [hgen initialTouchState c7PanZoom _ (by norm_num [c7PanZoom,
      initialZoomState, MIN_ZOOM])]
    norm_num [c7PanZoom, initialTouchState, initialZoomState]
  · rw [hgen initialTouchState c7PanZoom _ (by norm_num [c7PanZoom,
      initialZoomState, MIN_ZOOM])]
    norm_num [c7PanZoom, initialTouchState, initialZoomState]

/-- Claim C5: on a touch-end with exactly one released contact, a clear
zooming flag, zero remaining contacts, and the scale within tolerance of 1,
navigation fires if and only if the horizontal displacement from gesture
start dominates the vertical one and exceeds the swipe threshold; it requests
index − 1 when the displacement is positive (swipe right) and index + 1
otherwise. -/
theorem c5_swipe_navigation_decision (swipeThreshold : ℝ) (currentIndex : ℤ)
    (ts : TouchState) (zs : ZoomState) (t : Touch)
    (hz : ts.isZooming = false) (hs : isApproximatelyOne zs.scale) :
    (handleTouchEnd swipeThreshold currentIndex ts zs [t] []).2 =
      if |t.screenX - ts.startX| > |t.screenY - ts.startY| ∧
          |t.screenX - ts.startX| > swipeThreshold then
        some (if t.screenX - ts.startX > 0 then currentIndex - 1
              else currentIndex + 1)
      else none := by
  simp only [handleTouchEnd]
  dsimp only
  split_ifs <;> simp_all

/-- Witness for C5: the spec's swipe scenario — gesture start `(300, 200)`,
end point `(200, 200)`, threshold 50, current index 0 — requests index 1
(leftward swipe navigates to the next image). -/
theorem c5_witness :
    (handleTouchEnd 50 0 c5SwipeTouch initialZoomState
      [{ screenX := 200, screenY := 200 }] []).2 = some 1 := by
  rw [c5_swipe_navigation_decision 50 0 c5SwipeTouch initialZoomState
    { screenX := 200, screenY := 200 } rfl
    (by norm_num [isApproximatelyOne, initialZoomState, ZOOM_TOLERANCE])]
  norm_num [c5SwipeTouch, initialTouchState]

/-- Lemma: `handleTouchStart` never changes the committed scale or offsets (it only
snapshots them into the `initial*` fields). -/
lemma handleTouchStart_zoom_unchanged (ts : TouchState) (zs : ZoomState)
    (touches : List Touch) :
    (handleTouchStart ts zs touches).2.scale = zs.scale ∧
    (handleTouchStart ts zs touches).2.x = zs.x ∧
    (handleTouchStart ts zs touches).2.y = zs.y := by
  rcases touches with _ | ⟨a, _ | ⟨b, _ | ⟨c, rest⟩⟩⟩ <;> exact ⟨rfl, rfl, rfl⟩

/-- Every scale `handleTouchMove` writes is either the previous scale or the
clamp of some requested value. -/
lemma handleTouchMove_scale_shape (ts : TouchState) (zs : ZoomState)
    (touches : List Touch) :
    (handleTouchMove ts zs touches).2.scale = zs.scale ∨
    ∃ r, (handleTouchMove ts zs touches).2.scale = clampScale r := by
  rcases touches with _ | ⟨a, _ | ⟨b, _ | ⟨c, rest⟩⟩⟩
  · exact Or.inl rfl
  · simp only [handleTouchMove]
    split_ifs
    · exact Or.inl rfl
    · exact Or.inl rfl
  · simp only [handleTouchMove]
    split_ifs
    · exact Or.inr ⟨_, rfl⟩
    · exact Or.inr ⟨_, rfl⟩
    · exact Or.inr ⟨_, rfl⟩
    · exact Or.inl rfl
  · exact Or.inl rfl

/-- Lemma: `handleTouchMove` preserves "scale exactly 1 implies offsets 0": a pinch
landing within tolerance of 1 zeroes the offsets, a pinch landing outside
tolerance cannot have scale exactly 1, and a one-contact pan requires
`scale > MIN_ZOOM`. -/
lemma handleTouchMove_rest_exact (ts : TouchState) (zs : ZoomState)
    (touches : List Touch) (h : zs.scale = 1 → zs.x = 0 ∧ zs.y = 0) :
    (handleTouchMove ts zs touches).2.scale = 1 →
    (handleTouchMove ts zs touches).2.x = 0 ∧
    (handleTouchMove ts zs touches).2.y = 0 := by
  rcases touches with _ | ⟨a, _ | ⟨b, _ | ⟨c, rest⟩⟩⟩
  · exact h
  · simp only [handleTouchMove]
    split_ifs with hgt
    · intro h1
      rw [h1] at hgt
      exact absurd hgt (by norm_num [MIN_ZOOM])
    · exact h
  · simp only [handleTouchMove]
    split_ifs with hd happrox hmin
    · intro _; exact ⟨rfl, rfl⟩
    · intro h1
      refine absurd ?_ happrox
      have h2 : clampScale (zs.initialScale *
          (getTouchDistance [a, b] / ts.initialDistance)) = 1 := h1
      rw [h2]
      norm_num [isApproximatelyOne, ZOOM_TOLERANCE]
    · intro h1
      refine absurd ?_ happrox
      have h2 : clampScale (zs.initialScale *
          (getTouchDistance [a, b] / ts.initialDistance)) = 1 := h1
      rw [h2]
      norm_num [isApproximatelyOne, ZOOM_TOLERANCE]
    · exact h
  · exact h

/-- Claim C8: `clampScale` always lands in `[MIN_ZOOM, MAX_ZOOM] = [1, 5]`,
`resetZoom` sets the scale to exactly 1, and every reachable state of the
gesture handlers has `1 ≤ scale ≤ 5`. -/
theorem c8_scale_bounds_invariant :
    (∀ r : ℝ, MIN_ZOOM ≤ clampScale r ∧ clampScale r ≤ MAX_ZOOM) ∧
    (∀ zs : ZoomState, (resetZoom zs).scale = 1) ∧
    (∀ s, Reachable s → MIN_ZOOM ≤ s.2.scale ∧ s.2.scale ≤ MAX_ZOOM) := by
  have hclamp : ∀ r : ℝ, MIN_ZOOM ≤ clampScale r ∧ clampScale r ≤ MAX_ZOOM := by
    intro r
    unfold clampScale MIN_ZOOM MAX_ZOOM
    exact ⟨le_max_left _ _, max_le (by norm_num) (min_le_left _ _)⟩
  refine ⟨hclamp, fun zs => rfl, ?_⟩
  intro s hs
  induction hs with
  | init => norm_num [initialZoomState, MIN_ZOOM, MAX_ZOOM]
  | reset ts zs h ih => norm_num [resetZoom, MIN_ZOOM, MAX_ZOOM]
  | start ts zs touches h ih =>
      rcases handleTouchStart_zoom_unchanged ts zs touches with ⟨hsc, -, -⟩
      rw [hsc]
      exact ih
  | move ts zs touches h ih =>
      rcases handleTouchMove_scale_shape ts zs touches with hsc | ⟨r, hsc⟩
      · rw [hsc]; exact ih
      · rw [hsc]; exact hclamp r
  | touchEnd thr idx ts zs changed touches h ih => exact ih

/-- Claim C1 (amended): in every reachable state, scale exactly 1 forces both
offsets to 0, and every two-contact pinch move preserves the tolerance-based
rest property; the tolerance-based property itself is not an invariant of
one-contact pan moves (see the counterexample: a pan at a reachable scale of
1.005 sets a nonzero offset while `isApproximatelyOne` still holds). -/
theorem c1_rest_offsets_amended :
    (∀ s, Reachable s → s.2.scale = 1 → s.2.x = 0 ∧ s.2.y = 0) ∧
    (∀ (ts : TouchState) (zs : ZoomState) (t1 t2 : Touch),
      (isApproximatelyOne zs.scale → zs.x = 0 ∧ zs.y = 0) →
      isApproximatelyOne (handleTouchMove ts zs [t1, t2]).2.scale →
      (handleTouchMove ts zs [t1, t2]).2.x = 0 ∧
      (handleTouchMove ts zs [t1, t2]).2.y = 0) := by
  constructor
  · intro s hs
    induction hs with
    | init => intro _; exact ⟨rfl, rfl⟩
    | reset ts zs h ih => intro _; exact ⟨rfl, rfl⟩
    | start ts zs touches h ih =>
        rcases handleTouchStart_zoom_unchanged ts zs touches with ⟨hsc, hx, hy⟩
        rw [hsc, hx, hy]
        exact ih
    | move ts zs touches h ih => exact handleTouchMove_rest_exact ts zs touches ih
    | touchEnd thr idx ts zs changed touches h ih => exact ih
  · intro ts zs t1 t2 hpre
    simp only [handleTouchMove]
    split_ifs with hd happrox hmin
    · intro _; exact ⟨rfl, rfl⟩
    · intro hap; exact absurd hap happrox
    · intro hap; exact absurd hap happrox
    · exact hpre

/-- Claim C1 counterexample: a concrete reachable state — produced by a pinch
to scale 1.005 (which zeroes the offsets), lifting both fingers, then a
one-finger pan of 20.1 device pixels — whose scale is within the 0.01
tolerance of 1 while `offsetX = 20 ≠ 0`; the final one-contact pan move did
not preserve the claimed property. -/
theorem c1_counterexample :
    Reachable (c1FinalTouch, c1FinalZoom) ∧
    isApproximatelyOne c1FinalZoom.scale ∧ c1FinalZoom.x ≠ 0 := by
  have d1 : getTouchDistance
      [{ screenX := 0, screenY := 0 }, { screenX := 100, screenY := 0 }] = 100 := by
    show Real.sqrt (((100 : ℝ) - 0) ^ 2 + ((0 : ℝ) - 0) ^ 2) = 100
    rw [show ((100 : ℝ) - 0) ^ 2 + ((0 : ℝ) - 0) ^ 2 = 100 ^ 2 by norm_num]
    exact Real.sqrt_sq (by norm_num)
  have d2 : getTouchDistance
      [{ screenX := 0, screenY := 0 }, { screenX := 100.5, screenY := 0 }]
      = 100.5 := by
    show Real.sqrt (((100.5 : ℝ) - 0) ^ 2 + ((0 : ℝ) - 0) ^ 2) = 100.5
    rw [show ((100.5 : ℝ) - 0) ^ 2 + ((0 : ℝ) - 0) ^ 2 = 100.5 ^ 2 by norm_num]
    exact Real.sqrt_sq (by norm_num)
  have h1 : handleTouchStart initialTouchState initialZoomState
      [{ screenX := 0, screenY := 0 }, { screenX := 100, screenY := 0 }] =
      ({ startX := 0, startY := 0, endX := 0, endY := 0, initialDistance := 100,
         isZooming := true, lastCenterX := 50, lastCenterY := 0 },
       { scale := 1, x := 0, y := 0, initialScale := 1, initialX := 0,
         initialY := 0 }) := by
    norm_num [handleTouchStart, getTouchCenter, initialTouchState,
      initialZoomState, d1]
  have h2 : handleTouchMove
      { startX := 0, startY := 0, endX := 0, endY := 0, initialDistance := 100,
        isZooming := true, lastCenterX := 50, lastCenterY := 0 }
      { scale := 1, x := 0, y := 0, initialScale := 1, initialX := 0,
        initialY := 0 }
      [{ screenX := 0, screenY := 0 }, { screenX := 100.5, screenY := 0 }] =
      ({ startX := 0, startY := 0, endX := 0, endY := 0, initialDistance := 100,
         isZooming := true, lastCenterX := 50.25, lastCenterY := 0 },
       { scale := 1.005, x := 0, y := 0, initialScale := 1, initialX := 0,
         initialY := 0 }) := by
    simp only [handleTouchMove, getTouchCenter, Option.getD]
    rw [d2]
    norm_num [clampScale, isApproximatelyOne, ZOOM_TOLERANCE, MIN_ZOOM,
      MAX_ZOOM, min_def, max_def, abs_lt]
  have h3 : (handleTouchEnd 50 0
      { startX := 0, startY := 0, endX := 0, endY := 0, initialDistance := 100,
        isZooming := true, lastCenterX := 50.25, lastCenterY := 0 }
      { scale := 1.005, x := 0, y := 0, initialScale := 1, initialX := 0,
        initialY := 0 }
      [{ screenX := 100.5, screenY := 0 }] []).1 =
      { startX := 0, startY := 0, endX := 0, endY := 0, initialDistance := 0,
        isZooming := false, lastCenterX := 50.25, lastCenterY := 0 } := by
    norm_num [handleTouchEnd]
  have h4 : handleTouchStart
      { startX := 0, startY := 0, endX := 0, endY := 0, initialDistance := 0,
        isZooming := false, lastCenterX := 50.25, lastCenterY := 0 }
      { scale := 1.005, x := 0, y := 0, initialScale := 1, initialX := 0,
        initialY := 0 }
      [{ screenX := 0, screenY := 0 }] =
      ({ startX := 0, startY := 0, endX := 0, endY := 0, initialDistance := 0,
         isZooming := false, lastCenterX := 0, lastCenterY := 0 },
       { scale := 1.005, x := 0, y := 0, initialScale := 1.005, initialX := 0,
         initialY := 0 }) := rfl
  have h5 : handleTouchMove
      { startX := 0, startY := 0, endX := 0, endY := 0, initialDistance := 0,
        isZooming := false, lastCenterX := 0, lastCenterY := 0 }
      { scale := 1.005, x := 0, y := 0, initialScale := 1.005, initialX := 0,
        initialY := 0 }
      [{ screenX := 20.1, screenY := 0 }] = (c1FinalTouch, c1FinalZoom) := by
    norm_num [handleTouchMove, MIN_ZOOM, c1FinalTouch, c1FinalZoom]
  refine ⟨?_, ?_, ?_⟩
  · have r1 := Reachable.start initialTouchState initialZoomState
      [{ screenX := 0, screenY := 0 }, { screenX := 100, screenY := 0 }]
      Reachable.init
    rw [h1] at r1
    have r2 := Reachable.move _ _
      [{ screenX := 0, screenY := 0 }, { screenX := 100.5, screenY := 0 }] r1
    rw [h2] at r2
    have r3 := Reachable.touchEnd 50 0 _ _
      [{ screenX := 100.5, screenY := 0 }] [] r2
    rw [h3] at r3
    have r4 := Reachable.start _ _ [{ screenX := 0, screenY := 0 }] r3
    rw [h4] at r4
    have r5 := Reachable.move _ _ [{ screenX := 20.1, screenY := 0 }] r4
    rw [h5] at r5
    exact r5
  · norm_num [c1FinalZoom, isApproximatelyOne, ZOOM_TOLERANCE, abs_lt]
  · norm_num [c1FinalZoom]

/-- Claim C10: once the click guard passes (an IMG carrying the configured
URL attribute), the open sequence's element lookup is well-defined exactly
under the membership precondition.  If the clicked element is not in the
selector-matched set, `findIndex` yields `-1` and the open sequence reads
`images[-1]`, an absent element (`none`); if it is a member, the computed
index is nonnegative and the lookup returns the clicked element.  The last
conjunct is the concrete hazard: a target carrying `data-lightbox` that the
selector does not match. -/
theorem c10_click_membership_precondition :
    (∀ (attr : String) (msel : Element → Bool) (doc : List Element)
        (target : Element),
      target.tagName = "IMG" → hasAttribute target attr = true →
      target ∉ doc.filter msel →
      clickOpenLookup attr msel doc target = some (-1, none)) ∧
    (∀ (attr : String) (msel : Element → Bool) (doc : List Element)
        (target : Element),
      target.tagName = "IMG" → hasAttribute target attr = true →
      target ∈ doc.filter msel →
      ∃ i : ℤ, 0 ≤ i ∧
        clickOpenLookup attr msel doc target = some (i, some target)) ∧
    clickOpenLookup "data-lightbox" (fun _ => false) [c10Target] c10Target =
      some (-1, none) := by
  refine ⟨?_, ?_, by decide⟩
  · intro attr msel doc target htag hattr hnotmem
    unfold clickOpenLookup
    rw [if_pos (by simp [htag, hattr])]
    have hfind : (doc.filter msel).findIdx? (fun img => img == target) = none := by
      rw [List.findIdx?_eq_none_iff]
      intro x hx
      rcases eq_or_ne x target with rfl | hne
      · exact absurd hx hnotmem
      · exact beq_eq_false_iff_ne.mpr hne
    have hidx : jsFindIndex (doc.filter msel) target = -1 := by
      unfold jsFindIndex
      rw [hfind]
    have hget : jsArrayGet (doc.filter msel) (-1) = none := by
      unfold jsArrayGet
      rw [dif_neg (by norm_num)]
    dsimp only
    rw [hidx, hget]
  · intro attr msel doc target htag hattr hmem
    have hex : ∃ x ∈ doc.filter msel, (x == target) = true :=
      ⟨target, hmem, beq_self_eq_true target⟩
    have hfind := List.findIdx?_eq_some_of_exists hex
    have hlt := List.findIdx_lt_length_of_exists hex
    refine ⟨((doc.filter msel).findIdx (fun img => img == target) : ℤ),
      Int.ofNat_nonneg _, ?_⟩
    unfold clickOpenLookup
    rw [if_pos (by simp [htag, hattr])]
    have hidx : jsFindIndex (doc.filter msel) target =
        ((doc.filter msel).findIdx (fun img => img == target) : ℤ) := by
      unfold jsFindIndex
      rw [hfind]
    have harr : jsArrayGet (doc.filter msel)
        ((doc.filter msel).findIdx (fun img => img == target) : ℤ) =
        some target := by
      unfold jsArrayGet
      rw [dif_pos ⟨Int.ofNat_nonneg _, by simpa using hlt⟩]
      have hpe := @List.findIdx_getElem _ (fun img => img == target)
        (doc.filter msel) hlt
      have heq := eq_of_beq hpe
      congr 1
    dsimp only
    rw [hidx, harr]

end LiteLight
